import Mathlib

/-!
Verification of the sitemap loader (`embedchain/loaders/sitemap.py`,
`SitemapLoader.load_data`) against its specification.

The Python function is shallowly embedded: the HTTP client, the XML parser
and the per-page loader are collaborators, modelled as components of an
environment record; exceptions are modelled with `Except`; the thread pool's
`as_completed` drain order is modelled as a reordering function on the
submitted link list (constrained to a permutation where a claim needs it).
-/

/-- Model of a `requests` HTTP response: status code and body text. -/
structure HttpResponse where
  status_code : Nat
  text : String
deriving DecidableEq

/-- Model of `requests.Response.raise_for_status`: raises `HTTPError`
exactly when the status code is in 400..599 (client or server error);
informational, success and redirect statuses do not raise. -/
def raise_for_status (r : HttpResponse) : Except Unit Unit :=
  if 400 ≤ r.status_code ∧ r.status_code < 600 then Except.error () else Except.ok ()

/-- A parsed XML element: tag name, its `.text` value (the string
BeautifulSoup's `.text` returns for it), and its child elements in
document order. -/
inductive Xml where
  | elem (name : String) (text : String) (children : List Xml)

mutual
/-- Model of `soup.find_all("loc")` paired with `link.parent.name`:
walks an element in document (pre)order and returns, for every
element named `"loc"`, the pair (parent tag name, element text).
The top-level elements' parent is the BeautifulSoup document object,
whose `.name` is `"[document]"`. -/
def locsOf (parent : String) : Xml → List (String × String)
  | Xml.elem n t cs => (if n = "loc" then [(parent, t)] else []) ++ locsList n cs
/-- `locsOf` over a sibling list, in document order. -/
def locsList (parent : String) : List Xml → List (String × String)
  | [] => []
  | c :: rest => locsOf parent c ++ locsList parent rest
end

/-- Embedding of lines 36-38 of `sitemap.py`:
`links = [link.text for link in soup.find_all("loc") if link.parent.name == "url"]`,
falling back to all `<loc>` texts when that list is empty. -/
def discoverLinks (doc : List Xml) : List String :=
  let locs := locsList "[document]" doc
  let links := (locs.filter (fun p => p.1 = "url")).map Prod.snd
  if links.length = 0 then locs.map Prod.snd else links

/-- The strict extraction: texts of the `<loc>` elements whose immediate
parent is a `<url>` element, in document order. -/
def urlLocTexts (doc : List Xml) : List String :=
  ((locsList "[document]" doc).filter (fun p => p.1 = "url")).map Prod.snd

/-- The fallback extraction: texts of all `<loc>` elements, in document
order. -/
def allLocTexts (doc : List Xml) : List String :=
  (locsList "[document]" doc).map Prod.snd

/-! ### SHA-256 (as in Python's `hashlib.sha256`), over byte lists -/

/-- Truncation to a 32-bit word. -/
def w32 (n : Nat) : Nat := n % 4294967296

/-- Right rotation of a 32-bit word. -/
def rotr (n x : Nat) : Nat := w32 ((x >>> n) ||| (x <<< (32 - n)))

/-- Big-endian serialization of `n` into `k` bytes. -/
def toBytesBE (k n : Nat) : List Nat :=
  (List.range k).map (fun i => (n >>> (8 * (k - 1 - i))) % 256)

/-- Big-endian word from a byte list. -/
def bytesToWordBE (bs : List Nat) : Nat := bs.foldl (fun acc b => acc * 256 + b) 0

/-- SHA-256 padding: append `0x80`, zeros to 56 mod 64, then the 64-bit
big-endian bit length. -/
def padMessage (msg : List Nat) : List Nat :=
  msg ++ 0x80 :: List.replicate ((119 - msg.length % 64) % 64) 0 ++ toBytesBE 8 (8 * msg.length)

/-- Split a byte list into its full 64-byte chunks, accumulating the
current chunk in reverse order; a trailing partial chunk is dropped (the
padded message's length is always a multiple of 64, so none exists). -/
def chunksAux (cur : List Nat) : List Nat → List (List Nat)
  | [] => []
  | b :: rest =>
    if cur.length = 63 then (cur ++ [b]) :: chunksAux [] rest
    else chunksAux (cur ++ [b]) rest

/-- Split a byte list into 64-byte chunks. -/
def chunksOf64 (l : List Nat) : List (List Nat) := chunksAux [] l

/-- The eight working variables / hash state of SHA-256. -/
structure Hash8 where
  a : Nat
  b : Nat
  c : Nat
  d : Nat
  e : Nat
  f : Nat
  g : Nat
  h : Nat

/-- SHA-256 initial hash value. -/
def initH : Hash8 :=
  { a := 0x6a09e667, b := 0xbb67ae85, c := 0x3c6ef372, d := 0xa54ff53a,
    e := 0x510e527f, f := 0x9b05688c, g := 0x1f83d9ab, h := 0x5be0cd19 }

/-- SHA-256 round constants (rows of four, rounds 0 to 63). -/
def K256 : List Nat :=
  [0x428a2f98, 0x71374491, 0xb5c0fbcf, 0xe9b5dba5] ++
  [0x3956c25b, 0x59f111f1, 0x923f82a4, 0xab1c5ed5] ++
  [0xd807aa98, 0x12835b01, 0x243185be, 0x550c7dc3] ++
  [0x72be5d74, 0x80deb1fe, 0x9bdc06a7, 0xc19bf174] ++
  [0xe49b69c1, 0xefbe4786, 0x0fc19dc6, 0x240ca1cc] ++
  [0x2de92c6f, 0x4a7484aa, 0x5cb0a9dc, 0x76f988da] ++
  [0x983e5152, 0xa831c66d, 0xb00327c8, 0xbf597fc7] ++
  [0xc6e00bf3, 0xd5a79147, 0x06ca6351, 0x14292967] ++
  [0x27b70a85, 0x2e1b2138, 0x4d2c6dfc, 0x53380d13] ++
  [0x650a7354, 0x766a0abb, 0x81c2c92e, 0x92722c85] ++
  [0xa2bfe8a1, 0xa81a664b, 0xc24b8b70, 0xc76c51a3] ++
  [0xd192e819, 0xd6990624, 0xf40e3585, 0x106aa070] ++
  [0x19a4c116, 0x1e376c08, 0x2748774c, 0x34b0bcb5] ++
  [0x391c0cb3, 0x4ed8aa4a, 0x5b9cca4f, 0x682e6ff3] ++
  [0x748f82ee, 0x78a5636f, 0x84c87814, 0x8cc70208] ++
  [0x90befffa, 0xa4506ceb, 0xbef9a3f7, 0xc67178f2]

/-- Extend the 16-word message schedule by one word. -/
def scheduleStep (w : List Nat) : List Nat :=
  let n := w.length
  let wi15 := w.getD (n - 15) 0
  let wi2 := w.getD (n - 2) 0
  let wi16 := w.getD (n - 16) 0
  let wi7 := w.getD (n - 7) 0
  let s0 := (rotr 7 wi15) ^^^ (rotr 18 wi15) ^^^ (wi15 >>> 3)
  let s1 := (rotr 17 wi2) ^^^ (rotr 19 wi2) ^^^ (wi2 >>> 10)
  w ++ [w32 (wi16 + s0 + wi7 + s1)]

/-- The 64-word message schedule of one chunk. -/
def schedule (w : List Nat) : List Nat :=
  (List.range 48).foldl (fun acc _ => scheduleStep acc) w

/-- The 16 initial schedule words of a 64-byte chunk. -/
def wordsOfChunk (chunk : List Nat) : List Nat :=
  (List.range 16).map (fun i => bytesToWordBE ((chunk.drop (4 * i)).take 4))

/-- One SHA-256 compression round, consuming a (round constant, schedule
word) pair. -/
def compressStep (st : Hash8) (kw : Nat × Nat) : Hash8 :=
  let s1 := (rotr 6 st.e) ^^^ (rotr 11 st.e) ^^^ (rotr 25 st.e)
  let ch := (st.e &&& st.f) ^^^ ((0xffffffff ^^^ st.e) &&& st.g)
  let temp1 := w32 (st.h + s1 + ch + kw.1 + kw.2)
  let s0 := (rotr 2 st.a) ^^^ (rotr 13 st.a) ^^^ (rotr 22 st.a)
  let maj := (st.a &&& st.b) ^^^ (st.a &&& st.c) ^^^ (st.b &&& st.c)
  let temp2 := w32 (s0 + maj)
  ⟨w32 (temp1 + temp2), st.a, st.b, st.c, w32 (st.d + temp1), st.e, st.f, st.g⟩

/-- Process one 64-byte chunk. -/
def processChunk (st : Hash8) (chunk : List Nat) : Hash8 :=
  let ws := schedule (wordsOfChunk chunk)
  let fin := (K256.zip ws).foldl compressStep st
  ⟨w32 (st.a + fin.a), w32 (st.b + fin.b), w32 (st.c + fin.c), w32 (st.d + fin.d),
   w32 (st.e + fin.e), w32 (st.f + fin.f), w32 (st.g + fin.g), w32 (st.h + fin.h)⟩

/-- Big-endian serialization of the final hash state. -/
def digestBytes (st : Hash8) : List Nat :=
  toBytesBE 4 st.a ++ toBytesBE 4 st.b ++ toBytesBE 4 st.c ++ toBytesBE 4 st.d ++
  toBytesBE 4 st.e ++ toBytesBE 4 st.f ++ toBytesBE 4 st.g ++ toBytesBE 4 st.h

/-- SHA-256 digest (32 bytes) of a byte list. -/
def sha256 (msg : List Nat) : List Nat :=
  digestBytes ((chunksOf64 (padMessage msg)).foldl processChunk initH)

/-- A lowercase hexadecimal digit. -/
def hexDigit : Nat → Char
  | 0 => '0' | 1 => '1' | 2 => '2' | 3 => '3' | 4 => '4' | 5 => '5' | 6 => '6' | 7 => '7'
  | 8 => '8' | 9 => '9' | 10 => 'a' | 11 => 'b' | 12 => 'c' | 13 => 'd' | 14 => 'e' | _ => 'f'

/-- The sixteen lowercase hexadecimal digit characters. -/
def hexChars : List Char := "0123456789abcdef".data

/-- Two lowercase hex characters of one byte. -/
def hexByte (b : Nat) : List Char := [hexDigit (b / 16), hexDigit (b % 16)]

/-- Model of `hashlib.sha256(bytes).hexdigest()`: lowercase hex rendering of
the 32-byte digest. -/
def sha256Hex (msg : List Nat) : String := String.mk ((sha256 msg).flatMap hexByte)

/-- UTF-8 encoding of one character (model of `str.encode()` per char). -/
def utf8EncodeChar (c : Char) : List Nat :=
  let n := c.toNat
  if n < 0x80 then [n]
  else if n < 0x800 then [0xc0 ||| (n >>> 6), 0x80 ||| (n &&& 0x3f)]
  else if n < 0x10000 then
    [0xe0 ||| (n >>> 12), 0x80 ||| ((n >>> 6) &&& 0x3f), 0x80 ||| (n &&& 0x3f)]
  else
    [0xf0 ||| (n >>> 18), 0x80 ||| ((n >>> 12) &&& 0x3f),
     0x80 ||| ((n >>> 6) &&& 0x3f), 0x80 ||| (n &&& 0x3f)]

/-- UTF-8 encoding of a string (model of Python's `str.encode()`). -/
def utf8Bytes (s : String) : List Nat := s.data.flatMap utf8EncodeChar

/-! ### The loader -/

/-- The behaviour of `web_page_loader.load_data(link)` for one link in one
run: it either returns a mapping (whose `.get("data")` result is modelled
directly: `none` when the key is absent or its value is `None`, `some l`
when the value is the fragment list `l`), or raises `ParserRejectedMarkup`,
or raises some other exception. -/
inductive PageOutcome where
  | ok (data : Option (List String))
  | parserRejected
  | otherError
deriving DecidableEq

/-- The collaborators of one `load_data` run: the HTTP client
(`requests.get`, which may raise), the XML parser
(`BeautifulSoup(text, "xml")`, which may raise), the per-link page loader,
and the order in which the thread pool's `as_completed` drains the futures
of the submitted links. -/
structure Env where
  get : String → Except Unit HttpResponse
  parse : String → Except Unit (List Xml)
  page : String → PageOutcome
  order : List String → List String

/-- The result record `{"doc_id": ..., "data": ...}` of `load_data`. -/
structure LoadResult where
  doc_id : String
  data : List String
deriving DecidableEq

deriving instance DecidableEq for Except

/-- Embedding of the inner helper `load_data(link)` (lines 42-48): calls the
page loader; on `ParserRejectedMarkup` logs and returns `None`; any other
exception propagates out of the helper (into the future). -/
def load_data_link (o : PageOutcome) : Except Unit (Option (List String)) :=
  match o with
  | PageOutcome.ok d => Except.ok d
  | PageOutcome.parserRejected => Except.ok none
  | PageOutcome.otherError => Except.error ()

/-- Embedding of the result-draining loop (lines 50-59): for each completed
link, `future.result()` re-raises a worker exception, which is caught and
logged (the page is skipped); otherwise `if data: output.extend(data)`
appends the fragments when `data` is truthy (not `None`, not empty). -/
def collect (env : Env) : List String → List String
  | [] => []
  | link :: rest =>
    match load_data_link (env.page link) with
    | Except.error _ => collect env rest
    | Except.ok none => collect env rest
    | Except.ok (some d) => (if d.isEmpty then [] else d) ++ collect env rest

/-- Embedding of `SitemapLoader.load_data` (lines 29-61). The first
component is the returned record (or the propagated exception); the second
component is the list of links submitted to the worker pool, recorded so
that "no page fetches are attempted" is expressible. -/
def load_data (env : Env) (sitemap_url : String) : Except Unit LoadResult × List String :=
  match env.get sitemap_url with
  | Except.error _ => (Except.error (), [])
  | Except.ok response =>
    match raise_for_status response with
    | Except.error _ => (Except.error (), [])
    | Except.ok _ =>
      match env.parse response.text with
      | Except.error _ => (Except.error (), [])
      | Except.ok soup =>
        let links := discoverLinks soup
        let doc_id := sha256Hex (utf8Bytes (String.intercalate " " links ++ sitemap_url))
        (Except.ok ⟨doc_id, collect env (env.order links)⟩, links)

/-- The fragments one link contributes to the output: its fragment list when
the page loader returned one, nothing on any failure or absent data. -/
def contrib (env : Env) (link : String) : List String :=
  match env.page link with
  | PageOutcome.ok (some d) => d
  | _ => []

/-- The `doc_id` of a run's outcome, `none` when the run raised. -/
def docIdOf : Except Unit LoadResult → Option String
  | Except.ok r => some r.doc_id
  | Except.error _ => none

/-! ### Sanity of the SHA-256 model against standard test vectors -/

set_option maxRecDepth 100000 in
/-- NIST test vector: SHA-256 of `"abc"`. -/
theorem sha256Hex_abc :
    sha256Hex (utf8Bytes "abc") =
      "ba7816bf8f01cfea414140de5dae2223b00361a396177a9cb410ff61f20015ad" := by decide

set_option maxRecDepth 100000 in
/-- SHA-256 of the empty message. -/
theorem sha256Hex_empty :
    sha256Hex (utf8Bytes "") =
      "e3b0c44298fc1c149afbf4c8996fb92427ae41e4649b934ca495991b7852b855" := by decide

/-! ### Characterization lemmas -/

/-- Characterization of a run whose discovery (GET, status check, XML parse)
succeeds: the record is returned, the `doc_id` is the hash of the discovered
links joined by spaces and concatenated with the sitemap URL, the data is
collected from the completion order of the discovered links, and exactly the
discovered links are submitted for fetching. -/
theorem load_data_success (env : Env) (u : String) (resp : HttpResponse) (doc : List Xml)
    (hget : env.get u = Except.ok resp)
    (hst : ¬(400 ≤ resp.status_code ∧ resp.status_code < 600))
    (hparse : env.parse resp.text = Except.ok doc) :
    load_data env u =
      (Except.ok ⟨sha256Hex (utf8Bytes (String.intercalate " " (discoverLinks doc) ++ u)),
        collect env (env.order (discoverLinks doc))⟩,
       discoverLinks doc) := by
  unfold load_data raise_for_status
  rw [hget]
  simp only [if_neg hst, hparse]

/-- `collect` computes, link by link in the given order, the fragments the
page loader contributed: the fragment list on a present result, nothing on a
missing/empty result or any failure. -/
theorem collect_eq_flatMap (env : Env) (l : List String) :
    collect env l = l.flatMap (contrib env) := by
  induction l with
  | nil => rfl
  | cons x xs ih =>
    cases h : env.page x with
    | ok d =>
      cases d with
      | none => simp [collect, contrib, load_data_link, h, ih]
      | some fr =>
        cases hf : fr.isEmpty with
        | true =>
          have hfr : fr = [] := List.isEmpty_iff.mp hf
          simp [collect, contrib, load_data_link, h, hf, hfr, ih]
        | false => simp [collect, contrib, load_data_link, h, hf, ih]
    | parserRejected => simp [collect, contrib, load_data_link, h, ih]
    | otherError => simp [collect, contrib, load_data_link, h, ih]

/-- A page whose loader raised (either failure mode) contributes nothing. -/
theorem contrib_of_failure (env : Env) (link : String)
    (h : env.page link = PageOutcome.parserRejected ∨ env.page link = PageOutcome.otherError) :
    contrib env link = [] := by
  rcases h with h | h <;> simp [contrib, h]

/-- A page whose loader returned a mapping with a missing, `None` or empty
`"data"` value contributes nothing. -/
theorem contrib_of_absent (env : Env) (link : String)
    (h : env.page link = PageOutcome.ok none ∨ env.page link = PageOutcome.ok (some [])) :
    contrib env link = [] := by
  rcases h with h | h <;> simp [contrib, h]

/-! ### Concrete runs used as witnesses -/

/-- The spec's end-to-end example document: a sitemap with two
`<url><loc>` entries. -/
def exDoc : List Xml :=
  [Xml.elem "urlset" "" [
    Xml.elem "url" "" [Xml.elem "loc" "https://example.com/a" []],
    Xml.elem "url" "" [Xml.elem "loc" "https://example.com/b" []]]]

/-- The spec's end-to-end example run: page a yields fragments A1, A2 and
page b fails with a markup parse error; futures complete in submission
order. -/
def exEnv : Env :=
  { get := fun _ => Except.ok ⟨200, "sitemap body"⟩
    parse := fun _ => Except.ok exDoc
    page := fun l =>
      if l = "https://example.com/a" then PageOutcome.ok (some ["A1", "A2"])
      else PageOutcome.parserRejected
    order := fun l => l }

/-- A run whose sitemap GET answers HTTP 304 (a redirect-class, non-2xx
status) with an empty body. -/
def env304 : Env :=
  { get := fun _ => Except.ok ⟨304, ""⟩
    parse := fun _ => Except.ok []
    page := fun _ => PageOutcome.ok none
    order := fun l => l }

/-- A run whose sitemap GET answers HTTP 404. -/
def env404 : Env :=
  { get := fun _ => Except.ok ⟨404, ""⟩
    parse := fun _ => Except.ok []
    page := fun _ => PageOutcome.ok none
    order := fun l => l }

/-- A run whose sitemap body the XML parser rejects. -/
def envBadXml : Env :=
  { get := fun _ => Except.ok ⟨200, "not xml"⟩
    parse := fun _ => Except.error ()
    page := fun _ => PageOutcome.ok none
    order := fun l => l }

/-- A sitemap-index-style document: its `<loc>` elements sit under
`<sitemap>` elements, not `<url>` elements. -/
def exDocIndex : List Xml :=
  [Xml.elem "sitemapindex" "" [
    Xml.elem "sitemap" "" [Xml.elem "loc" "https://example.com/s1.xml" []],
    Xml.elem "sitemap" "" [Xml.elem "loc" "https://example.com/s2.xml" []]]]

/-! ### Claim theorems -/

/-- C1: for a fixed sitemap URL, two runs with the same HTTP client and the
same XML parser (hence the same sitemap response and the same discovered
links) but arbitrary, possibly different per-page outcomes and completion
orders produce the identical `doc_id` (and both raise, or neither does). -/
theorem C1_doc_id_deterministic (env1 env2 : Env) (u : String)
    (hget : env1.get = env2.get) (hparse : env1.parse = env2.parse) :
    docIdOf (load_data env1 u).1 = docIdOf (load_data env2 u).1 := by
  cases hg : env2.get u with
  | error e =>
    have h1 : env1.get u = Except.error e := by rw [hget, hg]
    unfold load_data
    rw [h1, hg]
  | ok resp =>
    have h1 : env1.get u = Except.ok resp := by rw [hget, hg]
    by_cases hst : 400 ≤ resp.status_code ∧ resp.status_code < 600
    · unfold load_data raise_for_status
      rw [h1, hg]
      simp only [if_pos hst]
    · cases hp : env2.parse resp.text with
      | error e =>
        have h2 : env1.parse resp.text = Except.error e := by rw [hparse, hp]
        unfold load_data raise_for_status
        rw [h1, hg]
        simp only [if_neg hst, h2, hp]
      | ok doc =>
        have h2 : env1.parse resp.text = Except.ok doc := by rw [hparse, hp]
        rw [load_data_success env1 u resp doc h1 hst h2,
          load_data_success env2 u resp doc hg hst hp]
        rfl

/-- C1 witness: two runs sharing the HTTP client and parser but with
different page outcomes (all pages succeed vs. all pages raise) and
different completion orders yield the same `doc_id`. -/
theorem C1_witness :
    docIdOf (load_data exEnv "https://example.com/sitemap.xml").1 =
      docIdOf (load_data
        { get := exEnv.get, parse := exEnv.parse,
          page := fun _ => PageOutcome.otherError,
          order := fun l => l.reverse } "https://example.com/sitemap.xml").1 :=
  C1_doc_id_deterministic _ _ "https://example.com/sitemap.xml" rfl rfl

/-- C3 counterexample: the claim says every non-2xx status makes
`load_data` raise, but the code's `raise_for_status` only raises for
4xx/5xx; a 304 response (non-2xx) is let through and the run returns a
record instead of raising. -/
theorem C3_counterexample :
    env304.get "https://example.com/sitemap.xml" = Except.ok ⟨304, ""⟩ ∧
    ¬(200 ≤ (304 : Nat) ∧ (304 : Nat) < 300) ∧
    (load_data env304 "https://example.com/sitemap.xml").1.isOk = true :=
  ⟨rfl, by decide, rfl⟩

/-- C3 amended: if the initial GET returns a status in 400..599 (the
statuses `requests.raise_for_status` treats as failure), `load_data`
raises, returns no partial result, and submits no page fetches. -/
theorem C3_fatal_status (env : Env) (u : String) (resp : HttpResponse)
    (hget : env.get u = Except.ok resp)
    (h4 : 400 ≤ resp.status_code) (h6 : resp.status_code < 600) :
    load_data env u = (Except.error (), []) := by
  unfold load_data raise_for_status
  rw [hget]
  simp only [if_pos (And.intro h4 h6)]

/-- C3 witness: a 404 response makes the run raise with no fetches. -/
theorem C3_witness : load_data env404 "https://example.com/sitemap.xml" = (Except.error (), []) :=
  C3_fatal_status env404 "https://example.com/sitemap.xml" ⟨404, ""⟩ rfl (by decide) (by decide)

/-- C5: discovery returns the texts of the `<loc>` elements whose immediate
parent is a `<url>` element (in document order, duplicates kept); if and
only if that list is empty it falls back to the texts of all `<loc>`
elements; in particular a document none of whose `<loc>` elements has a
`<url>` parent still yields every `<loc>` text. -/
theorem C5_discovery_extraction (doc : List Xml) :
    (urlLocTexts doc ≠ [] → discoverLinks doc = urlLocTexts doc) ∧
    (urlLocTexts doc = [] → discoverLinks doc = allLocTexts doc) ∧
    ((∀ p ∈ locsList "[document]" doc, p.1 ≠ "url") → discoverLinks doc = allLocTexts doc) := by
  refine ⟨fun h => ?_, fun h => ?_, fun h => ?_⟩
  · unfold discoverLinks urlLocTexts at *
    rw [if_neg (fun hl => h (List.length_eq_zero.mp hl))]
  · unfold discoverLinks urlLocTexts allLocTexts at *
    rw [if_pos (by rw [h]; rfl)]
  · unfold discoverLinks allLocTexts
    rw [if_pos]
    rw [List.length_eq_zero, List.map_eq_nil_iff, List.filter_eq_nil_iff]
    intro p hp
    simpa using h p hp

/-- C5 witness: on a sitemap-index-style document whose `<loc>` elements
have no `<url>` parent the fallback branch activates and every `<loc>` text
is returned. -/
theorem C5_witness :
    discoverLinks exDocIndex = ["https://example.com/s1.xml", "https://example.com/s2.xml"] := by
  rw [(C5_discovery_extraction exDocIndex).2.2 (by decide)]
  rfl

/-- C7: if the XML parser rejects the sitemap response body, `load_data`
raises (there is no handler around the parse), returns no partial result,
and submits no page fetches — the same fatal class as a failing status. -/
theorem C7_fatal_unparseable (env : Env) (u : String) (resp : HttpResponse)
    (hget : env.get u = Except.ok resp)
    (hst : ¬(400 ≤ resp.status_code ∧ resp.status_code < 600))
    (hparse : env.parse resp.text = Except.error ()) :
    load_data env u = (Except.error (), []) := by
  unfold load_data raise_for_status
  rw [hget]
  simp only [if_neg hst, hparse]

/-- C7 witness: a run whose body is rejected by the parser raises with no
fetches. -/
theorem C7_witness : load_data envBadXml "https://example.com/sitemap.xml" = (Except.error (), []) :=
  C7_fatal_unparseable envBadXml "https://example.com/sitemap.xml" ⟨200, "not xml"⟩ rfl
    (by decide) rfl

/-- C2: when discovery succeeds and, among the fetched pages, exactly one
raises (either failure mode) while every other page returns a result,
`load_data` does not raise and the returned `data` is exactly the
aggregation of the other pages, in their completion order. -/
theorem C2_single_failure_isolated (env : Env) (u : String) (resp : HttpResponse)
    (doc : List Xml) (pre post : List String) (bad : String)
    (hget : env.get u = Except.ok resp)
    (hst : ¬(400 ≤ resp.status_code ∧ resp.status_code < 600))
    (hparse : env.parse resp.text = Except.ok doc)
    (horder : env.order (discoverLinks doc) = pre ++ bad :: post)
    (hbad : env.page bad = PageOutcome.parserRejected ∨ env.page bad = PageOutcome.otherError)
    (hok : ∀ l ∈ pre ++ post, ∃ d, env.page l = PageOutcome.ok d) :
    ∃ r, (load_data env u).1 = Except.ok r ∧ r.data = collect env (pre ++ post) := by
  have h := load_data_success env u resp doc hget hst hparse
  refine ⟨_, by rw [h], ?_⟩
  show collect env (env.order (discoverLinks doc)) = collect env (pre ++ post)
  rw [horder, collect_eq_flatMap, collect_eq_flatMap]
  simp [contrib_of_failure env bad hbad]

/-- C2 witness: in the end-to-end example (pages a and b discovered, page b
raising a parse error), the run returns the aggregation of page a alone. -/
theorem C2_witness :
    ∃ r, (load_data exEnv "https://example.com/sitemap.xml").1 = Except.ok r ∧
      r.data = collect exEnv (["https://example.com/a"] ++ []) := by
  refine C2_single_failure_isolated exEnv "https://example.com/sitemap.xml" ⟨200, "sitemap body"⟩
    exDoc ["https://example.com/a"] [] "https://example.com/b" rfl (by decide) rfl (by decide)
    (by decide) ?_
  intro l hl
  simp only [List.append_nil, List.mem_singleton] at hl
  subst hl
  exact ⟨some ["A1", "A2"], by decide⟩

set_option maxRecDepth 1000000 in
/-- C4 counterexample: the claim's concrete example inserts a space between
the joined link list and the sitemap URL, but the code computes
`" ".join(links) + sitemap_url` with no separator; on the example sitemap
the code's `doc_id` differs from the claim's expected digest. -/
theorem C4_counterexample :
    (load_data exEnv "https://example.com/sitemap.xml").1 =
      Except.ok ⟨"0c48cbbbdf16227c217d374af935e5677fe421dd25e1d9ba82b88ad5bf232eba",
        ["A1", "A2"]⟩ ∧
    sha256Hex (utf8Bytes
        "https://example.com/a https://example.com/b https://example.com/sitemap.xml") ≠
      "0c48cbbbdf16227c217d374af935e5677fe421dd25e1d9ba82b88ad5bf232eba" := by
  exact ⟨by decide, by decide⟩

/-- C4 amended: `doc_id` is the hex SHA-256 of the UTF-8 bytes of the
space-joined discovered-URL list directly concatenated (no separator) with
the sitemap URL, computed from the exact discovered list. -/
theorem C4_doc_id_formula (env : Env) (u : String) (resp : HttpResponse) (doc : List Xml)
    (hget : env.get u = Except.ok resp)
    (hst : ¬(400 ≤ resp.status_code ∧ resp.status_code < 600))
    (hparse : env.parse resp.text = Except.ok doc) :
    ∃ r, (load_data env u).1 = Except.ok r ∧
      r.doc_id = sha256Hex (utf8Bytes (String.intercalate " " (discoverLinks doc) ++ u)) := by
  have h := load_data_success env u resp doc hget hst hparse
  exact ⟨_, by rw [h], rfl⟩

/-- C4 witness: on the example sitemap the `doc_id` is the SHA-256 of
`"https://example.com/a https://example.com/bhttps://example.com/sitemap.xml"`
(no space before the sitemap URL). -/
theorem C4_witness :
    ∃ r, (load_data exEnv "https://example.com/sitemap.xml").1 = Except.ok r ∧
      r.doc_id = sha256Hex (utf8Bytes
        "https://example.com/a https://example.com/bhttps://example.com/sitemap.xml") := by
  have h := C4_doc_id_formula exEnv "https://example.com/sitemap.xml" ⟨200, "sitemap body"⟩
    exDoc rfl (by decide) rfl
  have hs : String.intercalate " " (discoverLinks exDoc) ++ "https://example.com/sitemap.xml" =
      "https://example.com/a https://example.com/bhttps://example.com/sitemap.xml" := by decide
  rw [hs] at h
  exact h

/-- C6: a sitemap document with zero `<loc>` entries is not an error: the
run returns `data = []` and the `doc_id` computed from the empty joined
link list concatenated with the sitemap URL. -/
theorem C6_empty_sitemap (env : Env) (u : String) (resp : HttpResponse) (doc : List Xml)
    (hget : env.get u = Except.ok resp)
    (hst : ¬(400 ≤ resp.status_code ∧ resp.status_code < 600))
    (hparse : env.parse resp.text = Except.ok doc)
    (hempty : locsList "[document]" doc = [])
    (horder : (env.order (discoverLinks doc)).Perm (discoverLinks doc)) :
    (load_data env u).1 = Except.ok ⟨sha256Hex (utf8Bytes ("" ++ u)), []⟩ := by
  have hlinks : discoverLinks doc = [] := by
    unfold discoverLinks
    rw [hempty]
    rfl
  rw [hlinks] at horder
  rw [load_data_success env u resp doc hget hst hparse, hlinks, horder.eq_nil]
  rfl

/-- C6 witness: a sitemap whose root element has no `<loc>` descendants
yields the empty data list and the hash of the bare sitemap URL. -/
theorem C6_witness :
    (load_data env304 "https://example.com/sitemap.xml").1 =
      Except.ok ⟨sha256Hex (utf8Bytes ("" ++ "https://example.com/sitemap.xml")), []⟩ :=
  C6_empty_sitemap env304 "https://example.com/sitemap.xml" ⟨304, ""⟩ [] rfl (by decide) rfl rfl
    (List.Perm.refl _)

/-- C8: for any completion order of the page fetches (a permutation of the
discovered links), the returned `data` is the concatenation, in completion
order, of the fragments of the pages whose results were present, while the
`doc_id` is computed from the discovered links in discovery order. -/
theorem C8_completion_order_aggregation (env : Env) (u : String) (resp : HttpResponse)
    (doc : List Xml)
    (hget : env.get u = Except.ok resp)
    (hst : ¬(400 ≤ resp.status_code ∧ resp.status_code < 600))
    (hparse : env.parse resp.text = Except.ok doc)
    (horder : (env.order (discoverLinks doc)).Perm (discoverLinks doc)) :
    ∃ r, (load_data env u).1 = Except.ok r ∧
      r.data = (env.order (discoverLinks doc)).flatMap (contrib env) ∧
      r.doc_id = sha256Hex (utf8Bytes (String.intercalate " " (discoverLinks doc) ++ u)) := by
  have h := load_data_success env u resp doc hget hst hparse
  exact ⟨_, by rw [h], collect_eq_flatMap env _, rfl⟩

/-- C8 witness: with both pages succeeding and the pool completing in
reverse submission order, the data is aggregated in completion order
(page b's fragments before page a's) while the `doc_id` is still computed
from the links in discovery order. -/
theorem C8_witness :
    ∃ r, (load_data
      { get := fun _ => Except.ok ⟨200, "sitemap body"⟩
        parse := fun _ => Except.ok exDoc
        page := fun l =>
          if l = "https://example.com/a" then PageOutcome.ok (some ["A1", "A2"])
          else PageOutcome.ok (some ["B1"])
        order := fun l => l.reverse } "https://example.com/sitemap.xml").1 = Except.ok r ∧
      r.data = ((discoverLinks exDoc).reverse).flatMap (contrib
        { get := fun _ => Except.ok ⟨200, "sitemap body"⟩
          parse := fun _ => Except.ok exDoc
          page := fun l =>
            if l = "https://example.com/a" then PageOutcome.ok (some ["A1", "A2"])
            else PageOutcome.ok (some ["B1"])
          order := fun l => l.reverse }) ∧
      r.doc_id = sha256Hex (utf8Bytes
        (String.intercalate " " (discoverLinks exDoc) ++ "https://example.com/sitemap.xml")) :=
  C8_completion_order_aggregation _ "https://example.com/sitemap.xml" ⟨200, "sitemap body"⟩
    exDoc rfl (by decide) rfl (List.reverse_perm _)

/-- C10: a page whose loader returns a mapping with a missing `"data"` key,
a `None` value, or an empty fragment list does not make `load_data` raise
and contributes no fragments: the returned `data` is exactly the
aggregation of the remaining pages in completion order (the returned record
is a `LoadResult`, whose only fields are `doc_id` and `data`). -/
theorem C10_absent_data_skipped (env : Env) (u : String) (resp : HttpResponse)
    (doc : List Xml) (pre post : List String) (l : String)
    (hget : env.get u = Except.ok resp)
    (hst : ¬(400 ≤ resp.status_code ∧ resp.status_code < 600))
    (hparse : env.parse resp.text = Except.ok doc)
    (horder : env.order (discoverLinks doc) = pre ++ l :: post)
    (habsent : env.page l = PageOutcome.ok none ∨ env.page l = PageOutcome.ok (some [])) :
    ∃ r, (load_data env u).1 = Except.ok r ∧ r.data = collect env (pre ++ post) := by
  have h := load_data_success env u resp doc hget hst hparse
  refine ⟨_, by rw [h], ?_⟩
  show collect env (env.order (discoverLinks doc)) = collect env (pre ++ post)
  rw [horder, collect_eq_flatMap, collect_eq_flatMap]
  simp [contrib_of_absent env l habsent]

/-- C10 witness: page a's mapping has no usable `"data"` (modelled as the
`.get` result `None`), so the run returns exactly page b's fragments. -/
theorem C10_witness :
    ∃ r, (load_data
      { get := fun _ => Except.ok ⟨200, "sitemap body"⟩
        parse := fun _ => Except.ok exDoc
        page := fun l =>
          if l = "https://example.com/a" then PageOutcome.ok none
          else PageOutcome.ok (some ["B1"])
        order := fun l => l } "https://example.com/sitemap.xml").1 = Except.ok r ∧
      r.data = collect
        { get := fun _ => Except.ok ⟨200, "sitemap body"⟩
          parse := fun _ => Except.ok exDoc
          page := fun l =>
            if l = "https://example.com/a" then PageOutcome.ok none
            else PageOutcome.ok (some ["B1"])
          order := fun l => l } ([] ++ ["https://example.com/b"]) :=
  C10_absent_data_skipped _ "https://example.com/sitemap.xml" ⟨200, "sitemap body"⟩ exDoc
    [] ["https://example.com/b"] "https://example.com/a" rfl (by decide) rfl (by decide)
    (by decide)

/-! ### C9: shape of the hex digest -/

/-- A big-endian serialization has the requested number of bytes. -/
theorem toBytesBE_length (k n : Nat) : (toBytesBE k n).length = k := by
  simp [toBytesBE]

/-- A SHA-256 digest has 32 bytes. -/
theorem sha256_length (msg : List Nat) : (sha256 msg).length = 32 := by
  simp [sha256, digestBytes, toBytesBE_length]

/-- Hex rendering doubles the byte count. -/
theorem length_flatMap_hexByte (l : List Nat) : (l.flatMap hexByte).length = 2 * l.length := by
  induction l with
  | nil => rfl
  | cons b bs ih =>
    simp [hexByte, ih]
    omega

/-- A hex digest is 64 characters long. -/
theorem sha256Hex_length (msg : List Nat) : (sha256Hex msg).length = 64 := by
  show ((sha256 msg).flatMap hexByte).length = 64
  rw [length_flatMap_hexByte, sha256_length]

/-- Every rendered digit is one of the sixteen lowercase hex characters. -/
theorem hexDigit_mem (n : Nat) : hexDigit n ∈ hexChars := by
  unfold hexDigit
  split <;> decide

/-- Every character of a hex digest is a lowercase hex character. -/
theorem sha256Hex_chars (msg : List Nat) {c : Char} (hc : c ∈ (sha256Hex msg).data) :
    c ∈ hexChars := by
  have hc2 : c ∈ (sha256 msg).flatMap hexByte := hc
  rcases List.mem_flatMap.mp hc2 with ⟨b, _, hcb⟩
  simp only [hexByte, List.mem_cons, List.mem_singleton, List.not_mem_nil, or_false] at hcb
  rcases hcb with h | h <;> rw [h] <;> exact hexDigit_mem _

/-- C9: whenever `load_data` returns (any sitemap URL and any discovered
list, the empty one included), the returned `doc_id` is a 64-character
string over the lowercase hexadecimal alphabet. -/
theorem C9_doc_id_hex64 (env : Env) (u : String) (r : LoadResult)
    (h : (load_data env u).1 = Except.ok r) :
    r.doc_id.length = 64 ∧ ∀ c ∈ r.doc_id.data, c ∈ hexChars := by
  obtain ⟨m, hm⟩ : ∃ m, r.doc_id = sha256Hex m := by
    cases hg : env.get u with
    | error e =>
      unfold load_data at h
      rw [hg] at h
      simp at h
    | ok resp =>
      by_cases hst : 400 ≤ resp.status_code ∧ resp.status_code < 600
      · unfold load_data raise_for_status at h
        rw [hg] at h
        simp only [if_pos hst] at h
        simp at h
      · cases hp : env.parse resp.text with
        | error e =>
          unfold load_data raise_for_status at h
          rw [hg] at h
          simp only [if_neg hst, hp] at h
          simp at h
        | ok doc =>
          rw [load_data_success env u resp doc hg hst hp] at h
          have h2 := Except.ok.inj h
          exact ⟨_, by rw [← h2]⟩
  rw [hm]
  exact ⟨sha256Hex_length m, fun c hc => sha256Hex_chars m hc⟩

set_option maxRecDepth 1000000 in
/-- C9 witness: the end-to-end example's `doc_id` is 64 lowercase hex
characters. -/
theorem C9_witness :
    ("0c48cbbbdf16227c217d374af935e5677fe421dd25e1d9ba82b88ad5bf232eba" : String).length = 64 ∧
    ∀ c ∈ ("0c48cbbbdf16227c217d374af935e5677fe421dd25e1d9ba82b88ad5bf232eba" : String).data,
      c ∈ hexChars :=
  C9_doc_id_hex64 exEnv "https://example.com/sitemap.xml"
    ⟨"0c48cbbbdf16227c217d374af935e5677fe421dd25e1d9ba82b88ad5bf232eba", ["A1", "A2"]⟩
    (by decide)
